import Mathlib

/-!
Verification of the storage upload core of `image-paste-to-cloud`
(`src/main.ts`) against its natural-language specification.

The TypeScript source is shallowly embedded:

* JavaScript strings are modelled as lists of UTF-16 code units
  (`List Nat`) wherever the source manipulates them per code unit
  (`split`, `slice`, the `/[^a-zA-Z0-9]/g` replace all operate on code
  units); `utf16Units` converts a Lean `String` to that representation.
* `Date` is modelled by `JSDate` (epoch milliseconds plus the
  `getTimezoneOffset()` value); `getFullYear`/`getMonth`/`getDate` and
  their UTC counterparts are derived with the standard civil-calendar
  conversion, which is the semantics of the ECMAScript date accessors.
* The MD5 digest from `crypto` is external library code and is modelled
  abstractly as a parameter `md5Hex : List Nat → List Nat` (bytes to the
  hex-digit units of the digest); theorems that need its shape carry the
  documented property (hex digits) as a hypothesis.
* Effectful methods (`uploadImage`, `validateConfig`, `saveSettings`,
  `onload`) are embedded as pure functions over the outcome the network
  would return, additionally reporting the list of network commands
  issued, so that "no network call happens" is expressible.
-/

namespace ImagePaste

/-! ## UTF-16 code-unit infrastructure -/

/-- UTF-16 code units of a Lean string: code points below `0x10000` are one
unit, the rest become a surrogate pair. This is the unit sequence JavaScript
string operations act on. -/
def utf16Units (s : String) : List Nat :=
  s.data.flatMap fun c =>
    let n := c.toNat
    if n < 0x10000 then [n]
    else [0xD800 + (n - 0x10000) / 0x400, 0xDC00 + (n - 0x10000) % 0x400]

/-- A code unit matching the regex class `[a-zA-Z0-9]` of the source's
sanitizer (`main.ts` line 149). -/
def isAlnumUnit (u : Nat) : Bool :=
  (48 ≤ u && u ≤ 57) || (65 ≤ u && u ≤ 90) || (97 ≤ u && u ≤ 122)

/-- One step of `String.prototype.replace(/[^a-zA-Z0-9]/g, '-')`: a unit
outside `[a-zA-Z0-9]` becomes `'-'` (unit 45). -/
def sanitizeUnit (u : Nat) : Nat :=
  if isAlnumUnit u then u else 45

/-- `String.prototype.toLowerCase` on code units, for the ASCII range (the
only range exercised here; `A`–`Z` gain 32, everything else is kept). -/
def toLowerUnit (u : Nat) : Nat :=
  if 65 ≤ u && u ≤ 90 then u + 32 else u

def toLowerUnits (l : List Nat) : List Nat := l.map toLowerUnit

/-- `String.prototype.split(sep)` for a one-unit separator, on any element
type: always returns at least one (possibly empty) field. -/
def splitSep {α : Type} [DecidableEq α] (c : α) : List α → List (List α)
  | [] => [[]]
  | a :: as =>
    match splitSep c as with
    | [] => [[]]
    | r :: rs => if a = c then [] :: r :: rs else (a :: r) :: rs

/-- Decimal digit units of a natural number, fuel-indexed so that it
computes by kernel reduction. -/
def decimalDigitsAux : Nat → Nat → List Nat
  | 0, _ => []
  | fuel + 1, n =>
    if n < 10 then [48 + n]
    else decimalDigitsAux fuel (n / 10) ++ [48 + n % 10]

/-- Units of `String(n)` for a natural number `n`. -/
def decimalDigits (n : Nat) : List Nat := decimalDigitsAux (n + 1) n

/-- Units of `String(i)` for a JavaScript number holding an integer. -/
def intDecimalUnits (i : Int) : List Nat :=
  if i < 0 then 45 :: decimalDigits i.natAbs else decimalDigits i.toNat

/-- Units of `String(n).padStart(2, '0')` (`main.ts` lines 154–155). -/
def pad2 (n : Nat) : List Nat :=
  let d := decimalDigits n
  List.replicate (2 - d.length) 48 ++ d

/-! ## JavaScript `Date` model -/

/-- A JavaScript `Date`: the epoch-milliseconds time value together with the
`getTimezoneOffset()` result (UTC minus local time, in minutes). -/
structure JSDate where
  epochMs : Int
  tzOffsetMin : Int

/-- Civil date `(year, month 1–12, day 1–31)` of a day count relative to
1970-01-01 (proleptic Gregorian calendar) — the calendar underlying the
ECMAScript date accessors. -/
def civilFromDays (z0 : Int) : Int × Nat × Nat :=
  let z := z0 + 719468
  let era : Int := z.fdiv 146097
  let doe : Nat := (z - era * 146097).toNat
  let yoe : Nat := (doe - doe / 1460 + doe / 36524 - doe / 146096) / 365
  let y : Int := (yoe : Int) + era * 400
  let doy : Nat := doe - (365 * yoe + yoe / 4 - yoe / 100)
  let mp : Nat := (5 * doy + 2) / 153
  let d : Nat := doy - (153 * mp + 2) / 5 + 1
  let m : Nat := if mp < 10 then mp + 3 else mp - 9
  (if m ≤ 2 then y + 1 else y, m, d)

/-- Local time value of a `Date` (ECMAScript `LocalTime(t)`). -/
def JSDate.localMs (d : JSDate) : Int := d.epochMs - d.tzOffsetMin * 60000

/-- Day number of the local time value. -/
def JSDate.localDays (d : JSDate) : Int := d.localMs.fdiv 86400000

/-- Day number of the UTC time value. -/
def JSDate.utcDays (d : JSDate) : Int := d.epochMs.fdiv 86400000

/-- `Date.prototype.getFullYear`. -/
def JSDate.getFullYear (d : JSDate) : Int := (civilFromDays d.localDays).1

/-- `Date.prototype.getMonth` (0-based, as in JavaScript). -/
def JSDate.getMonth (d : JSDate) : Nat := (civilFromDays d.localDays).2.1 - 1

/-- `Date.prototype.getDate`. -/
def JSDate.getDate (d : JSDate) : Nat := (civilFromDays d.localDays).2.2

/-- `Date.prototype.getUTCFullYear`. -/
def JSDate.getUTCFullYear (d : JSDate) : Int := (civilFromDays d.utcDays).1

/-- `Date.prototype.getUTCMonth` (0-based). -/
def JSDate.getUTCMonth (d : JSDate) : Nat := (civilFromDays d.utcDays).2.1 - 1

/-- `Date.prototype.getUTCDate`. -/
def JSDate.getUTCDate (d : JSDate) : Nat := (civilFromDays d.utcDays).2.2

/-! ## FileNamingService (`main.ts` lines 137–167) -/

/-- `file.name.split('.').pop()?.toLowerCase() || ''` (`main.ts` line 148):
the lower-cased text after the last `.`, or the whole lower-cased name when
no `.` is present (split then returns the single field `name`). -/
def extOf (name : List Nat) : List Nat :=
  toLowerUnits ((splitSep 46 name).getLastD [])

/-- `file.name.slice(0, -(ext.length + 1)).replace(/[^a-zA-Z0-9]/g, '-')`
(`main.ts` line 149); the negative `slice` end clamps at 0, which Nat
subtraction mirrors. -/
def baseOf (name : List Nat) : List Nat :=
  (name.take (name.length - ((extOf name).length + 1))).map sanitizeUnit

/-- `FileNamingService.generateCloudPath` (`main.ts` lines 143–166), with
the MD5 digest abstracted as `md5Hex` (bytes ↦ hex-digit units of the
digest) and the call moment as `now`. Unit 47 is `/`, 45 is `-`, 46 is `.`. -/
def generateCloudPath (md5Hex : List Nat → List Nat) (pathPfx : List Nat)
    (name : List Nat) (bytes : List Nat) (now : JSDate) : List Nat :=
  let ext := extOf name
  let base := baseOf name
  let year := now.getFullYear
  let month := now.getMonth + 1
  let day := now.getDate
  let dateStr := intDecimalUnits year ++ [47] ++ pad2 month ++ [47] ++ pad2 day
  let hash := (md5Hex bytes).take 8
  let fileName := base ++ [45] ++ hash ++ [46] ++ ext
  pathPfx ++ dateStr ++ [47] ++ fileName

/-- The key template of the specification:
`{pathPrefix}{YYYY}/{MM}/{DD}/{sanitizedBase}-{fingerprintPrefix}.{extension}`
with the date fields supplied from outside. -/
def specComposeKey (pathPfx yyyy mm dd base fp ext : List Nat) : List Nat :=
  pathPfx ++ yyyy ++ [47] ++ mm ++ [47] ++ dd ++ [47] ++
    base ++ [45] ++ fp ++ [46] ++ ext

/-! ## Provider configurations (`main.ts` lines 7–90) -/

/-- `S3Config` (`main.ts` lines 13–39). Optional string parameters
(`endpoint`, `customDomain`) are modelled as strings where the empty string
is the JavaScript falsy case (`undefined` or `''`). -/
structure S3Config where
  accessKeyId : String
  secretAccessKey : String
  region : String
  endpoint : String
  customDomain : String

/-- `S3Config.getEndpoint` (`main.ts` lines 22–27). -/
def S3Config.getEndpoint (c : S3Config) (_bucket : String) : String :=
  if c.endpoint ≠ "" then c.endpoint
  else "https://s3." ++ c.region ++ ".amazonaws.com"

/-- `S3Config.getFileUrl` (`main.ts` lines 29–34). -/
def S3Config.getFileUrl (c : S3Config) (bucket key : String) : String :=
  if c.customDomain ≠ "" then "https://" ++ c.customDomain ++ "/" ++ key
  else "https://" ++ bucket ++ ".s3." ++ c.region ++ ".amazonaws.com/" ++ key

/-- `S3Config.getRegion` (`main.ts` lines 36–38). -/
def S3Config.getRegion (c : S3Config) : String := c.region

/-- Model of `new URL(s)` restricted to the shapes the plugin documents:
an `http`/`https` URL `scheme://host/path…` without userinfo, port, query
or fragment. Returns `(scheme, host, pathname)`; as in WHATWG, an absent
path normalizes to `"/"`. Anything else is a parse failure. -/
def parseHttpUrl (s : String) : Option (String × String × String) :=
  let step : Option (String × List Char) :=
    if "https://".data.isPrefixOf s.data then some ("https", s.data.drop 8)
    else if "http://".data.isPrefixOf s.data then some ("http", s.data.drop 7)
    else none
  match step with
  | none => none
  | some (scheme, rest) =>
    let host := rest.takeWhile (· ≠ '/')
    let path := rest.dropWhile (· ≠ '/')
    if host = [] then none
    else some (scheme, String.mk host, String.mk (if path = [] then ['/'] else path))

/-- `url.pathname.split('/').filter(p => p)` (`main.ts` line 62). -/
def pathSegments (pathname : String) : List (List Char) :=
  (splitSep '/' pathname.data).filter (· ≠ [])

/-- The state the `R2Config` constructor establishes (`main.ts` lines
41–72). -/
structure R2Config where
  accessKeyId : String
  secretAccessKey : String
  baseEndpoint : String
  bucketFromEndpoint : Option String
  customDomain : String

/-- The `R2Config` constructor (`main.ts` lines 45–72): reject an empty
endpoint, parse the endpoint URL, remember the first path segment as the
bucket embedded in the endpoint, and strip the path to form the bare
endpoint (`url.pathname = ''; url.toString().replace(/\/$/, '')`). The
`url.protocol.startsWith('http')` test and the URL parse failure both land
in the same catch block and are collapsed into the parse-failure branch. -/
def R2Config.make (accessKeyId secretAccessKey endpoint customDomain : String) :
    Except String R2Config :=
  if endpoint = "" then .error "R2 endpoint is required"
  else
    match parseHttpUrl endpoint with
    | none => .error "Invalid R2 endpoint URL"
    | some (scheme, host, pathname) =>
      let pathParts := pathSegments pathname
      let bucketFromEndpoint := (pathParts.head?).map String.mk
      .ok { accessKeyId, secretAccessKey,
            baseEndpoint := scheme ++ "://" ++ host,
            bucketFromEndpoint, customDomain }

/-- `R2Config.getEndpoint` (`main.ts` lines 74–76). -/
def R2Config.getEndpoint (c : R2Config) (_bucket : String) : String :=
  c.baseEndpoint

/-- `R2Config.getFileUrl` (`main.ts` lines 78–85). -/
def R2Config.getFileUrl (c : R2Config) (bucket key : String) : String :=
  if c.customDomain ≠ "" then "https://" ++ c.customDomain ++ "/" ++ key
  else
    let actualBucket := c.bucketFromEndpoint.getD bucket
    c.baseEndpoint ++ "/" ++ actualBucket ++ "/" ++ key

/-- `R2Config.getRegion` (`main.ts` lines 87–89). -/
def R2Config.getRegion (_c : R2Config) : String := "auto"

/-- The `StorageServiceConfig` interface (`main.ts` lines 7–11) as the
union of its two implementations. -/
inductive StorageServiceConfig where
  | s3 (c : S3Config)
  | r2 (c : R2Config)

def StorageServiceConfig.getEndpoint : StorageServiceConfig → String → String
  | .s3 c, b => c.getEndpoint b
  | .r2 c, b => c.getEndpoint b

def StorageServiceConfig.getFileUrl : StorageServiceConfig → String → String → String
  | .s3 c, b, k => c.getFileUrl b k
  | .r2 c, b, k => c.getFileUrl b k

def StorageServiceConfig.getRegion : StorageServiceConfig → String
  | .s3 c => c.getRegion
  | .r2 c => c.getRegion

/-! ## Settings (`main.ts` lines 92–135) -/

/-- The per-variant settings sub-record; `s3Config` and `r2Config` share
this shape (`region` is unused by the R2 variant, `endpoint` is optional
for S3 and required for R2, with `""` the absent value). -/
structure VariantConfig where
  accessKeyId : String
  secretAccessKey : String
  region : String
  bucket : String
  endpoint : String
  customDomain : String
  pathPfx : String   -- `pathPrefix` in the source

inductive ServiceType where
  | s3
  | r2
deriving DecidableEq

/-- `S3ImageUploaderSettings` (`main.ts` lines 92–114). -/
structure Settings where
  serviceType : ServiceType
  s3Config : VariantConfig
  r2Config : VariantConfig

/-- The `serviceType === 's3' ? s3Config : r2Config` selection that every
method performs. -/
def Settings.activeConfig (s : Settings) : VariantConfig :=
  match s.serviceType with
  | .s3 => s.s3Config
  | .r2 => s.r2Config

/-- `initializeStorageConfig` (`main.ts` lines 193–215): build the active
`StorageServiceConfig`, re-checking that the R2 endpoint is present before
invoking the `R2Config` constructor. -/
def initializeStorageConfig (s : Settings) : Except String StorageServiceConfig :=
  match s.serviceType with
  | .s3 =>
    .ok (.s3 ⟨s.s3Config.accessKeyId, s.s3Config.secretAccessKey,
              s.s3Config.region, s.s3Config.endpoint, s.s3Config.customDomain⟩)
  | .r2 =>
    if s.r2Config.endpoint = "" then .error "R2 endpoint is required"
    else
      (R2Config.make s.r2Config.accessKeyId s.r2Config.secretAccessKey
        s.r2Config.endpoint s.r2Config.customDomain).map .r2

/-- The configuration object handed to `new S3Client` by
`initializeS3Client` (`main.ts` lines 217–238); constructing the client
performs no network traffic. -/
structure ClientConfig where
  region : String
  accessKeyId : String
  secretAccessKey : String
  endpoint : String
  forcePathStyle : Bool

/-- `initializeS3Client` (`main.ts` lines 217–238). -/
def mkClientConfig (s : Settings) (sc : StorageServiceConfig) : ClientConfig :=
  let cfg := s.activeConfig
  { region := if s.serviceType = .r2 then "auto" else sc.getRegion
    accessKeyId := cfg.accessKeyId
    secretAccessKey := cfg.secretAccessKey
    endpoint := sc.getEndpoint cfg.bucket
    forcePathStyle := true }

/-! ## Thrown errors and `uploadImage` (`main.ts` lines 329–383) -/

/-- A thrown JavaScript error as the upload path inspects it: either an
AWS-SDK service error carrying `name`, `message` and
`$metadata.httpStatusCode`, or a plain `new Error(message)` (whose `name`
is `"Error"` and which has no `$metadata`). -/
inductive JsError where
  | s3Error (name message : String) (httpStatusCode : Option Nat)
  | plainError (message : String)
deriving DecidableEq

def JsError.name : JsError → String
  | .s3Error n _ _ => n
  | .plainError _ => "Error"

def JsError.message : JsError → String
  | .s3Error _ m _ => m
  | .plainError m => m

/-- `error.$metadata?.httpStatusCode` with JavaScript truthiness: absent
metadata, absent field, and status 0 are all falsy. -/
def JsError.truthyStatus : JsError → Option Nat
  | .s3Error _ _ (some n) => if n = 0 then none else some n
  | _ => none

/-- `error.$metadata?.httpStatusCode || 'unknown'` rendered as a string
(`main.ts` line 359). -/
def JsError.statusText (e : JsError) : String :=
  match e.truthyStatus with
  | some n => toString n
  | none => "unknown"

/-- Boolean substring test, modelling `String.prototype.includes`. -/
def strIncludes (pat s : List Char) : Bool :=
  match s with
  | [] => decide (pat = [])
  | _ :: t => pat.isPrefixOf s || strIncludes pat t

/-- The catch block of `uploadImage` (`main.ts` lines 363–377): rethrow
`NoSuchBucket` and `AccessDenied` untouched, rename errors whose name
includes `Network` to `NetworkError`, wrap errors that carry an HTTP status
into a plain `HTTP {status}: {message}` error, and rethrow anything else. -/
def classifyUploadError (e : JsError) : JsError :=
  if e.name = "NoSuchBucket" then e
  else if e.name = "AccessDenied" then e
  else if strIncludes "Network".data e.name.data then
    match e with
    | .s3Error _ m st => .s3Error "NetworkError" m st
    | .plainError m => .plainError m
  else
    match e.truthyStatus with
    | some n => .plainError ("HTTP " ++ toString n ++ ": " ++ e.message)
    | none => e

/-- The error thrown when the post-write `HeadObject` verification fails
(`main.ts` line 359). -/
def verificationError (e : JsError) : JsError :=
  .plainError ("File uploaded but not accessible (HTTP " ++ e.statusText ++ "): "
    ++ e.message)

/-- A `PutObjectCommand` as constructed at `main.ts` lines 342–347. -/
structure PutCommand where
  bucket : String
  key : String
  body : List Nat
  contentType : String
deriving DecidableEq

/-- A `HeadObjectCommand` as constructed at `main.ts` lines 353–356 and
419–422. -/
structure HeadCommand where
  bucket : String
  key : String
deriving DecidableEq

/-- `S3ImageUploader.uploadImage` (`main.ts` lines 329–383), embedded over
the outcomes the two network sends would produce (`putOutcome` for the
signed PUT, `headOutcome` for the signed existence check). Returns the
result together with the commands actually issued. The outer catch
(lines 379–382) only logs and rethrows and adds nothing to the value. -/
def uploadImage (storageConfig : StorageServiceConfig) (cfg : VariantConfig)
    (key : String) (bytes : List Nat) (mimeType : String)
    (putOutcome headOutcome : Except JsError Unit) :
    Except JsError String × List PutCommand × List HeadCommand :=
  let put : PutCommand := ⟨cfg.bucket, key, bytes, mimeType⟩
  match putOutcome with
  | .error e => (.error (classifyUploadError e), [put], [])
  | .ok _ =>
    let head : HeadCommand := ⟨cfg.bucket, key⟩
    match headOutcome with
    | .error e => (.error (classifyUploadError (verificationError e)), [put], [head])
    | .ok _ => (.ok (storageConfig.getFileUrl cfg.bucket key), [put], [head])

/-! ## `validateConfig` (`main.ts` lines 395–437) and the plugin lifecycle -/

/-- Character class `[a-zA-Z0-9]`. -/
def alnumChar (c : Char) : Bool :=
  (48 ≤ c.toNat && c.toNat ≤ 57) || (65 ≤ c.toNat && c.toNat ≤ 90)
    || (97 ≤ c.toNat && c.toNat ≤ 122)

/-- Character class `[a-zA-Z0-9-_.]`. -/
def domainMiddleChar (c : Char) : Bool :=
  alnumChar c || c = '-' || c = '_' || c = '.'

/-- `isValidDomain` (`main.ts` lines 439–441): the regex
`^[a-zA-Z0-9][a-zA-Z0-9-_.]*[a-zA-Z0-9]$` (so at least two characters). -/
def isValidDomain (domain : String) : Bool :=
  match domain.data with
  | [] => false
  | c :: rest =>
    !rest.isEmpty && alnumChar c && alnumChar (rest.getLastD c)
      && rest.dropLast.all domainMiddleChar

/-- The sentinel key of the connectivity probe (`main.ts` line 421). -/
def sentinelKey : String := ".obsidian-test-connection"

/-- `s.endsWith(c)` for a one-character suffix: the last character is `c`. -/
def strEndsWith (s : String) (c : Char) : Bool := s.data.getLast? == some c

/-- The error message for a missing bucket (`main.ts` line 430). -/
def bucketNotFoundMsg (bucket : String) : String :=
  "Bucket \"" ++ bucket ++ "\" not found. Please check your configuration."

/-- The error message for rejected credentials (`main.ts` line 433). -/
def accessDeniedMsg : String :=
  "Access denied. Please check your credentials and bucket permissions."

/-- `validateConfig` (`main.ts` lines 395–437), embedded over the outcome
the probe send would produce. Returns the validation result together with
the list of `HeadObjectCommand`s issued: the three shape checks run before
any network call, and the probe issues exactly one signed existence check
for the sentinel key against the configured bucket. -/
def validateConfig (cfg : VariantConfig) (probeOutcome : Except JsError Unit) :
    Except String Unit × List HeadCommand :=
  let missing :=
    (if cfg.accessKeyId = "" then ["accessKeyId"] else []) ++
    (if cfg.secretAccessKey = "" then ["secretAccessKey"] else []) ++
    (if cfg.bucket = "" then ["bucket"] else [])
  if missing ≠ [] then
    (.error ("Missing required fields: " ++ String.intercalate ", " missing), [])
  else if strEndsWith cfg.pathPfx '/' = false then
    (.error "Path prefix must end with /", [])
  else if cfg.customDomain ≠ "" ∧ isValidDomain cfg.customDomain = false then
    (.error "Invalid custom domain format", [])
  else
    let probe : HeadCommand := ⟨cfg.bucket, sentinelKey⟩
    match probeOutcome with
    | .ok _ => (.ok (), [probe])
    | .error e =>
      if e.name = "NoSuchKey" then (.ok (), [probe])
      else if e.name = "NoSuchBucket" then
        (.error (bucketNotFoundMsg cfg.bucket), [probe])
      else if e.name = "AccessDenied" then
        (.error accessDeniedMsg, [probe])
      else (.error ("Failed to connect to storage: " ++ e.message), [probe])

/-- The startup validation path (`onload`, `main.ts` lines 175–191):
`initializeStorageConfig` and `initializeS3Client` run first and throw
before any network traffic; only then does `validateConfig` run. -/
def startupValidate (s : Settings) (probeOutcome : Except JsError Unit) :
    Except String Unit × List HeadCommand :=
  match initializeStorageConfig s with
  | .error e => (.error e, [])
  | .ok _ => validateConfig s.activeConfig probeOutcome

/-- Plugin instance state relevant to the lifecycle methods, with ghost
counters recording how often a fresh client was constructed and how often
`validateConfig` was invoked, plus the accumulated network commands. -/
structure PluginState where
  settings : Settings
  storageConfig : Option StorageServiceConfig
  clientGen : Nat
  validationRuns : Nat
  headCalls : List HeadCommand

/-- `onload` (`main.ts` lines 175–191): load settings, then inside a
try/catch resolve the storage config, build the client and run
`validateConfig`; a thrown configuration error is only surfaced as a
notice. -/
def onloadModel (loaded : Settings) (probeOutcome : Except JsError Unit) :
    PluginState :=
  match initializeStorageConfig loaded with
  | .error _ =>
    { settings := loaded, storageConfig := none, clientGen := 0,
      validationRuns := 0, headCalls := [] }
  | .ok sc =>
    let v := validateConfig loaded.activeConfig probeOutcome
    { settings := loaded, storageConfig := some sc, clientGen := 1,
      validationRuns := 1, headCalls := v.2 }

/-- `saveSettings` (`main.ts` lines 389–393): persist the settings, then
`initializeStorageConfig` and `initializeS3Client`. No call to
`validateConfig` appears in the body, so the validation counter and the
issued network commands are unchanged; if `initializeStorageConfig`
throws, the client is not rebuilt and the error propagates. -/
def saveSettingsModel (st : PluginState) (newSettings : Settings) :
    PluginState × Option String :=
  match initializeStorageConfig newSettings with
  | .error e => ({ st with settings := newSettings }, some e)
  | .ok sc =>
    ({ settings := newSettings, storageConfig := some sc,
       clientGen := st.clientGen + 1,
       validationRuns := st.validationRuns,
       headCalls := st.headCalls }, none)

/-! ## Shared concrete data for witnesses and counterexamples -/

/-- A unit of the safe set `[A-Za-z0-9/_.-]` declared by the specification
for storage keys. -/
def safeUnit (u : Nat) : Bool :=
  u = 45 || u = 46 || u = 47 || u = 95 || isAlnumUnit u

/-- A fixed stand-in for the MD5 hex digest (the digest of the empty
input), used to instantiate the abstract `md5Hex` parameter on concrete
examples. -/
def md5sample : List Nat → List Nat :=
  fun _ => utf16Units "d41d8cd98f00b204e9800998ecf8427e"

/-- 2024-03-15T00:00:00Z, in UTC (`getTimezoneOffset() = 0`). -/
def sampleDate : JSDate := ⟨19797 * 86400000, 0⟩

/-- The epoch instant in a zone one hour east of UTC
(`getTimezoneOffset() = 60`): the local calendar date is 1969-12-31 while
the UTC calendar date is 1970-01-01. -/
def skewDate : JSDate := ⟨0, 60⟩

/-! ## Helper lemmas -/

theorem splitSep_ne_nil {α : Type} [DecidableEq α] (c : α) (l : List α) :
    splitSep c l ≠ [] := by
  induction l with
  | nil => simp [splitSep]
  | cons a as ih =>
    simp only [splitSep]
    split
    · simp
    · split <;> simp

theorem splitSep_of_not_mem {α : Type} [DecidableEq α] (c : α) (l : List α)
    (h : c ∉ l) : splitSep c l = [l] := by
  induction l with
  | nil => rfl
  | cons a as ih =>
    have ha : ¬ a = c := fun hac => h (hac ▸ List.mem_cons_self a as)
    have h' : c ∉ as := fun hm => h (List.mem_cons_of_mem a hm)
    simp only [splitSep, ih h', ha, if_false]

theorem two_le_splitSep_length {α : Type} [DecidableEq α] (c : α) (l : List α)
    (h : c ∈ l) : 2 ≤ (splitSep c l).length := by
  induction l with
  | nil => cases h
  | cons a as ih =>
    simp only [splitSep]
    cases hs : splitSep c as with
    | nil => exact absurd hs (splitSep_ne_nil c as)
    | cons r rs =>
      by_cases hac : a = c
      · simp [hac]
      · have hmem : c ∈ as := by
          rcases List.mem_cons.mp h with h1 | h1
          · exact absurd h1.symm hac
          · exact h1
        have := ih hmem
        rw [hs] at this
        simp only [hac, if_false]
        simpa using this

theorem getLastD_splitSep_append {α : Type} [DecidableEq α] (c : α)
    (b e : List α) (he : c ∉ e) :
    (splitSep c (b ++ c :: e)).getLastD [] = e := by
  induction b with
  | nil =>
    simp only [List.nil_append, splitSep, splitSep_of_not_mem c e he, if_pos rfl]
    rfl
  | cons a b ih =>
    have hne := splitSep_ne_nil c (b ++ c :: e)
    have hlen := two_le_splitSep_length c (b ++ c :: e) (by simp)
    cases h : splitSep c (b ++ c :: e) with
    | nil => exact absurd h hne
    | cons r rs =>
      have hrs : rs ≠ [] := by
        intro hr
        rw [h, hr] at hlen
        simp at hlen
      rw [h] at ih
      show (match splitSep c (b ++ c :: e) with
        | [] => [[]]
        | r :: rs => if a = c then [] :: r :: rs else (a :: r) :: rs).getLastD [] = e
      rw [h]
      by_cases hac : a = c
      · simpa [hac, List.getLastD_cons] using ih
      · simp only [hac, if_false]
        rw [List.getLastD_cons, List.getLastD_eq_getLast?] at ih ⊢
        rcases rs with _ | ⟨r1, rs1⟩
        · exact absurd rfl hrs
        · simpa [List.getLast?_cons] using ih

theorem toLowerUnits_length (l : List Nat) :
    (toLowerUnits l).length = l.length := List.length_map _ _

theorem extOf_append (b e : List Nat) (he : 46 ∉ e) :
    extOf (b ++ 46 :: e) = toLowerUnits e := by
  unfold extOf
  rw [getLastD_splitSep_append 46 b e he]

theorem extOf_no_dot (name : List Nat) (h : 46 ∉ name) :
    extOf name = toLowerUnits name := by
  unfold extOf
  rw [splitSep_of_not_mem 46 name h]
  rfl

theorem baseOf_append (b e : List Nat) (he : 46 ∉ e) :
    baseOf (b ++ 46 :: e) = b.map sanitizeUnit := by
  unfold baseOf
  rw [extOf_append b e he, toLowerUnits_length]
  have hlen : (b ++ 46 :: e).length - (e.length + 1) = b.length := by
    simp only [List.length_append, List.length_cons]
    omega
  rw [hlen, List.take_left]

theorem baseOf_no_dot (name : List Nat) (h : 46 ∉ name) :
    baseOf name = [] := by
  unfold baseOf
  rw [extOf_no_dot name h, toLowerUnits_length]
  simp

theorem decimalDigitsAux_mem (fuel n : Nat) :
    ∀ u ∈ decimalDigitsAux fuel n, 48 ≤ u ∧ u ≤ 57 := by
  induction fuel generalizing n with
  | zero => simp [decimalDigitsAux]
  | succ f ih =>
    intro u hu
    simp only [decimalDigitsAux] at hu
    split at hu
    · simp only [List.mem_singleton] at hu
      omega
    · rw [List.mem_append] at hu
      rcases hu with h | h
      · exact ih _ u h
      · simp only [List.mem_singleton] at h
        have := Nat.mod_lt n (show 0 < 10 by norm_num)
        omega

theorem decimalDigits_mem (n : Nat) :
    ∀ u ∈ decimalDigits n, 48 ≤ u ∧ u ≤ 57 :=
  decimalDigitsAux_mem (n + 1) n

theorem pad2_mem (n : Nat) : ∀ u ∈ pad2 n, 48 ≤ u ∧ u ≤ 57 := by
  intro u hu
  unfold pad2 at hu
  rw [List.mem_append] at hu
  rcases hu with h | h
  · have := List.eq_of_mem_replicate h
    omega
  · exact decimalDigits_mem n u h

theorem civilFromDays_year_nonneg (z : Int) (hz : 0 ≤ z) :
    0 ≤ (civilFromDays z).1 := by
  unfold civilFromDays
  have hera : 0 ≤ (z + 719468).fdiv 146097 :=
    Int.fdiv_nonneg (by omega) (by norm_num)
  dsimp only
  split
  · positivity
  · positivity

theorem getFullYear_nonneg (d : JSDate) (h : 0 ≤ d.localDays) :
    0 ≤ d.getFullYear :=
  civilFromDays_year_nonneg _ h

theorem intDecimalUnits_mem (i : Int) (h : 0 ≤ i) :
    ∀ u ∈ intDecimalUnits i, 48 ≤ u ∧ u ≤ 57 := by
  unfold intDecimalUnits
  rw [if_neg (by omega)]
  exact decimalDigits_mem i.toNat

theorem safeUnit_of_digit {u : Nat} (h : 48 ≤ u ∧ u ≤ 57) :
    safeUnit u = true := by
  simp only [safeUnit, isAlnumUnit, Bool.or_eq_true, decide_eq_true_eq,
    Bool.and_eq_true]
  omega

theorem count47_eq_zero {l : List Nat} (h : ∀ u ∈ l, u ≠ 47) :
    l.count 47 = 0 :=
  List.count_eq_zero.mpr fun hm => (h 47 hm) rfl

theorem safeUnit_of_alnum {u : Nat} (h : isAlnumUnit u = true) :
    safeUnit u = true := by
  simp only [safeUnit, Bool.or_eq_true]
  tauto

theorem alnum_ne_47 {u : Nat} (h : isAlnumUnit u = true) : u ≠ 47 := by
  simp only [isAlnumUnit, Bool.or_eq_true, Bool.and_eq_true,
    decide_eq_true_eq] at h
  omega

theorem sanitizeUnit_safe (v : Nat) :
    safeUnit (sanitizeUnit v) = true ∧ sanitizeUnit v ≠ 47 := by
  unfold sanitizeUnit
  split
  · next h => exact ⟨safeUnit_of_alnum h, alnum_ne_47 h⟩
  · exact ⟨by decide, by decide⟩

theorem hexUnit_safe {u : Nat}
    (h : (48 ≤ u ∧ u ≤ 57) ∨ (97 ≤ u ∧ u ≤ 102)) :
    safeUnit u = true ∧ u ≠ 47 := by
  constructor
  · simp only [safeUnit, isAlnumUnit, Bool.or_eq_true, decide_eq_true_eq,
      Bool.and_eq_true]
    omega
  · omega

theorem digit_ne_47 {u : Nat} (h : 48 ≤ u ∧ u ≤ 57) : u ≠ 47 := by omega

/-! ## Claim theorems -/

/-- Claim C1, counterexample: at the epoch instant in a UTC+1 zone the
local calendar date (1969-12-31) differs from the UTC calendar date
(1970-01-01), and `generateCloudPath` does not produce the key the claim
predicts from the current UTC date — the code uses `getFullYear`,
`getMonth` and `getDate`, which read local time. -/
theorem c1_counterexample :
    generateCloudPath md5sample (utf16Units "images/") (utf16Units "a.png")
        [] skewDate ≠
      specComposeKey (utf16Units "images/")
        (intDecimalUnits skewDate.getUTCFullYear)
        (pad2 (skewDate.getUTCMonth + 1)) (pad2 skewDate.getUTCDate)
        (baseOf (utf16Units "a.png")) ((md5sample []).take 8)
        (extOf (utf16Units "a.png")) := by
  decide

/-- Claim C1 (amended): for every byte buffer, original filename, path
prefix, digest function and call moment, `generateCloudPath` returns
exactly the key
`{pathPrefix}{YYYY}/{MM}/{DD}/{sanitizedBase}-{fingerprintPrefix}.{extension}`
where `YYYY/MM/DD` is the current **local** calendar date at the moment of
the call (not the UTC date). -/
theorem c1_key_format_local_date (md5Hex : List Nat → List Nat)
    (pfx name bytes : List Nat) (now : JSDate) :
    generateCloudPath md5Hex pfx name bytes now =
      specComposeKey pfx (intDecimalUnits now.getFullYear)
        (pad2 (now.getMonth + 1)) (pad2 now.getDate)
        (baseOf name) ((md5Hex bytes).take 8) (extOf name) := by
  simp [generateCloudPath, specComposeKey, List.append_assoc]

/-- Claim C3, counterexample: for the printable Unicode filename `naïve`
(no dot), the whole lower-cased name becomes the extension, which is not
sanitized, so the generated key contains `ï` (unit 239) — outside the safe
set `[A-Za-z0-9/_.-]` — even though the separator count is as expected. -/
theorem c3_counterexample :
    ¬ (((generateCloudPath md5sample (utf16Units "images/")
          (utf16Units "naïve") [] sampleDate).all safeUnit) = true ∧
       (generateCloudPath md5sample (utf16Units "images/")
          (utf16Units "naïve") [] sampleDate).count 47 =
         (utf16Units "images/").count 47 + 3) := by
  decide

/-- Claim C3 (amended): the generated key stays inside the safe set
`[A-Za-z0-9/_.-]` and has exactly (number of separators in the prefix) + 3
path separators, provided the extension part of the filename (the
lower-cased text after the last dot, or the whole lower-cased name when no
dot is present) consists of safe non-separator units, the prefix is safe,
the digest is hex and the date is not before the epoch. For arbitrary
printable Unicode filenames the property fails (see the counterexample):
the extension is copied into the key unsanitized. -/
theorem c3_path_safety (md5Hex : List Nat → List Nat)
    (pfx name bytes : List Nat) (now : JSDate)
    (hnow : 0 ≤ now.localDays)
    (hpfx : ∀ u ∈ pfx, safeUnit u = true)
    (hhash : ∀ u ∈ md5Hex bytes, (48 ≤ u ∧ u ≤ 57) ∨ (97 ≤ u ∧ u ≤ 102))
    (hext : ∀ u ∈ extOf name, safeUnit u = true ∧ u ≠ 47) :
    (∀ u ∈ generateCloudPath md5Hex pfx name bytes now, safeUnit u = true) ∧
    (generateCloudPath md5Hex pfx name bytes now).count 47 =
      pfx.count 47 + 3 := by
  have hyear := intDecimalUnits_mem now.getFullYear (getFullYear_nonneg now hnow)
  constructor
  · intro u hu
    simp only [generateCloudPath, List.mem_append, List.mem_singleton] at hu
    rcases hu with ((hu | hdate) | hu) | hfile
    · exact hpfx u hu
    · rcases hdate with (((hu | hu) | hu) | hu) | hu
      · exact safeUnit_of_digit (hyear u hu)
      · subst hu; decide
      · exact safeUnit_of_digit (pad2_mem _ u hu)
      · subst hu; decide
      · exact safeUnit_of_digit (pad2_mem _ u hu)
    · subst hu; decide
    · rcases hfile with (((hu | hu) | hu) | hu) | hu
      · unfold baseOf at hu
        rcases List.mem_map.mp hu with ⟨v, _, rfl⟩
        exact (sanitizeUnit_safe v).1
      · subst hu; decide
      · exact (hexUnit_safe (hhash u (List.take_subset 8 _ hu))).1
      · subst hu; decide
      · exact (hext u hu).1
  · simp only [generateCloudPath, List.count_append]
    have h1 : (intDecimalUnits now.getFullYear).count 47 = 0 :=
      count47_eq_zero fun u hu => digit_ne_47 (hyear u hu)
    have h2 : (pad2 (now.getMonth + 1)).count 47 = 0 :=
      count47_eq_zero fun u hu => digit_ne_47 (pad2_mem _ u hu)
    have h3 : (pad2 now.getDate).count 47 = 0 :=
      count47_eq_zero fun u hu => digit_ne_47 (pad2_mem _ u hu)
    have h4 : (baseOf name).count 47 = 0 := by
      refine count47_eq_zero fun u hu => ?_
      unfold baseOf at hu
      rcases List.mem_map.mp hu with ⟨v, _, rfl⟩
      exact (sanitizeUnit_safe v).2
    have h5 : ((md5Hex bytes).take 8).count 47 = 0 :=
      count47_eq_zero fun u hu =>
        (hexUnit_safe (hhash u (List.take_subset 8 _ hu))).2
    have h6 : (extOf name).count 47 = 0 :=
      count47_eq_zero fun u hu => (hext u hu).2
    rw [h1, h2, h3, h4, h5, h6]
    simp

/-- Claim C3 witness: the amended path-safety property at the concrete
inputs of the specification's end-to-end scenario. -/
theorem c3_path_safety_witness :
    0 ≤ sampleDate.localDays ∧
    ((∀ u ∈ generateCloudPath md5sample (utf16Units "images/")
        (utf16Units "Screenshot 2024.PNG") [] sampleDate, safeUnit u = true) ∧
     (generateCloudPath md5sample (utf16Units "images/")
        (utf16Units "Screenshot 2024.PNG") [] sampleDate).count 47 =
       (utf16Units "images/").count 47 + 3) :=
  ⟨by decide,
   c3_path_safety md5sample (utf16Units "images/")
     (utf16Units "Screenshot 2024.PNG") [] sampleDate
     (by decide) (by decide) (by decide) (by decide)⟩

/-- Claim C4, counterexample: for the dot-free filename `readme` the
extension is not empty as the claim states — `split('.').pop()` returns
the whole name, which becomes the extension (and the base becomes empty). -/
theorem c4_counterexample :
    extOf (utf16Units "readme") = utf16Units "readme" ∧
      utf16Units "readme" ≠ [] := by
  decide

/-- Claim C4 (amended): the filename segment is derived by splitting at
the last `.` and lower-casing the extension; when no `.` is present the
**whole lower-cased name** becomes the extension and the base is empty
(not: the extension is empty); the base is sanitized by replacing every
unit outside `[A-Za-z0-9]` with `-`; and **no truncation** is applied —
the sanitized base length is unbounded. -/
theorem c4_filename_derivation :
    (∀ b e : List Nat, 46 ∉ e →
      extOf (b ++ 46 :: e) = toLowerUnits e ∧
      baseOf (b ++ 46 :: e) = b.map sanitizeUnit) ∧
    (∀ name : List Nat, 46 ∉ name →
      extOf name = toLowerUnits name ∧ baseOf name = []) ∧
    (∀ cap : Nat, ∃ name : List Nat, cap < (baseOf name).length) := by
  refine ⟨fun b e he => ⟨extOf_append b e he, baseOf_append b e he⟩,
    fun n hn => ⟨extOf_no_dot n hn, baseOf_no_dot n hn⟩,
    fun cap => ⟨List.replicate (cap + 1) 97 ++ 46 :: [112], ?_⟩⟩
  rw [baseOf_append _ _ (by simp)]
  simp

/-- Claim C4 witness: the split-at-last-dot and lower-casing behaviour at
a concrete filename with an upper-case extension. -/
theorem c4_filename_derivation_witness :
    46 ∉ utf16Units "PNG" ∧
    extOf (utf16Units "photo 1" ++ 46 :: utf16Units "PNG") =
      toLowerUnits (utf16Units "PNG") :=
  ⟨by decide, (c4_filename_derivation.1 (utf16Units "photo 1")
    (utf16Units "PNG") (by decide)).1⟩

/-- Closed form of a successful `R2Config.make`: when the endpoint parses,
the constructor succeeds and fills each field as the source does. -/
theorem make_ok (ak sk ep cd scheme host pathname : String)
    (hep : parseHttpUrl ep = some (scheme, host, pathname)) :
    R2Config.make ak sk ep cd =
      .ok { accessKeyId := ak, secretAccessKey := sk,
            baseEndpoint := scheme ++ "://" ++ host,
            bucketFromEndpoint := (pathSegments pathname).head?.map String.mk,
            customDomain := cd } := by
  have hne : ep ≠ "" := by
    intro h
    rw [h, show parseHttpUrl "" = none from rfl] at hep
    cases hep
  unfold R2Config.make
  rw [if_neg hne, hep]

/-- Claim C7: for an R2-style configuration whose endpoint URL contains a
path segment, the constructor records that segment as the authoritative
bucket component and strips it, so `getEndpoint` returns the bare service
endpoint for every bucket argument, and with no custom domain the public
URL is `{bareEndpoint}/{segmentFromEndpoint}/{key}` — the configured
bucket name is not used. -/
theorem c7_r2_endpoint_embeds_bucket (ak sk ep cd scheme host pathname : String)
    (seg : List Char) (rest : List (List Char))
    (hep : parseHttpUrl ep = some (scheme, host, pathname))
    (hseg : pathSegments pathname = seg :: rest) :
    ∃ c : R2Config, R2Config.make ak sk ep cd = .ok c ∧
      c.baseEndpoint = scheme ++ "://" ++ host ∧
      c.bucketFromEndpoint = some (String.mk seg) ∧
      (∀ bucket, c.getEndpoint bucket = scheme ++ "://" ++ host) ∧
      (cd = "" → ∀ bucket key, c.getFileUrl bucket key =
        scheme ++ "://" ++ host ++ "/" ++ String.mk seg ++ "/" ++ key) := by
  refine ⟨_, make_ok ak sk ep cd scheme host pathname hep, rfl, ?_, ?_, ?_⟩
  · show (pathSegments pathname).head?.map String.mk = _
    rw [hseg]
    rfl
  · intro bucket
    rfl
  · intro hcd bucket key
    show R2Config.getFileUrl _ bucket key = _
    unfold R2Config.getFileUrl
    rw [if_neg (by simp [hcd])]
    show (scheme ++ "://" ++ host) ++ "/" ++
        (((pathSegments pathname).head?.map String.mk).getD bucket) ++ "/" ++ key = _
    rw [hseg]
    rfl

/-- Claim C7 witness: the specification's own example endpoint. -/
theorem c7_witness :
    ∃ c : R2Config,
      R2Config.make "ak" "sk" "https://ACCT.r2.cloudflarestorage.com/mybucket" "" = .ok c ∧
      c.baseEndpoint = "https" ++ "://" ++ "ACCT.r2.cloudflarestorage.com" ∧
      c.bucketFromEndpoint = some (String.mk "mybucket".data) ∧
      (∀ bucket, c.getEndpoint bucket = "https" ++ "://" ++ "ACCT.r2.cloudflarestorage.com") ∧
      (("" : String) = "" → ∀ bucket key, c.getFileUrl bucket key =
        "https" ++ "://" ++ "ACCT.r2.cloudflarestorage.com" ++ "/" ++
          String.mk "mybucket".data ++ "/" ++ key) :=
  c7_r2_endpoint_embeds_bucket "ak" "sk"
    "https://ACCT.r2.cloudflarestorage.com/mybucket" ""
    "https" "ACCT.r2.cloudflarestorage.com" "/mybucket" "mybucket".data []
    (by decide) (by decide)

/-- A successful `R2Config.make` keeps the custom domain it was given. -/
theorem make_customDomain {ak sk ep cd : String} {c : R2Config}
    (h : R2Config.make ak sk ep cd = .ok c) : c.customDomain = cd := by
  unfold R2Config.make at h
  split at h
  · cases h
  · split at h
    · cases h
    · cases h
      rfl

/-- Claim C8: for both provider variants, any bucket and any key, the
resolved public URL is `https://{customDomain}/{key}` whenever a custom
domain is configured; otherwise the S3 variant yields the virtual-hosted
form and the R2-style variant yields
`{bareEndpoint}/{bucketSegmentOrConfiguredBucket}/{key}`. -/
theorem c8_public_url_resolution (s : Settings) (sc : StorageServiceConfig)
    (bucket key : String)
    (hres : initializeStorageConfig s = .ok sc) :
    (s.activeConfig.customDomain ≠ "" →
      sc.getFileUrl bucket key =
        "https://" ++ s.activeConfig.customDomain ++ "/" ++ key) ∧
    (s.activeConfig.customDomain = "" → s.serviceType = .s3 →
      sc.getFileUrl bucket key =
        "https://" ++ bucket ++ ".s3." ++ s.s3Config.region ++
          ".amazonaws.com/" ++ key) ∧
    (s.activeConfig.customDomain = "" → s.serviceType = .r2 →
      ∃ c : R2Config, sc = .r2 c ∧
        sc.getFileUrl bucket key =
          c.baseEndpoint ++ "/" ++ c.bucketFromEndpoint.getD bucket ++ "/" ++ key) := by
  cases hty : s.serviceType with
  | s3 =>
    have hact : s.activeConfig = s.s3Config := by
      unfold Settings.activeConfig
      rw [hty]
    simp only [initializeStorageConfig, hty, Except.ok.injEq] at hres
    subst hres
    refine ⟨?_, ?_, ?_⟩
    · intro hcd
      rw [hact] at hcd
      show S3Config.getFileUrl _ bucket key = _
      unfold S3Config.getFileUrl
      rw [if_pos (by simpa using hcd), hact]
    · intro hcd _
      rw [hact] at hcd
      show S3Config.getFileUrl _ bucket key = _
      unfold S3Config.getFileUrl
      rw [if_neg (by simp [hcd])]
    · intro _ hr2
      cases hr2
  | r2 =>
    have hact : s.activeConfig = s.r2Config := by
      unfold Settings.activeConfig
      rw [hty]
    simp only [initializeStorageConfig, hty] at hres
    by_cases hemp : s.r2Config.endpoint = ""
    · rw [if_pos hemp] at hres
      cases hres
    · rw [if_neg hemp] at hres
      rcases hmk : R2Config.make s.r2Config.accessKeyId s.r2Config.secretAccessKey
        s.r2Config.endpoint s.r2Config.customDomain with e | c
      · rw [hmk] at hres
        simp only [Except.map] at hres
        cases hres
      · rw [hmk] at hres
        simp only [Except.map, Except.ok.injEq] at hres
        subst hres
        have hcd' : c.customDomain = s.r2Config.customDomain := make_customDomain hmk
        refine ⟨?_, ?_, ?_⟩
        · intro hcd
          rw [hact] at hcd
          show R2Config.getFileUrl _ bucket key = _
          unfold R2Config.getFileUrl
          rw [if_pos (by simp [hcd', hcd]), hcd', hact]
        · intro _ hs3
          cases hs3
        · intro hcd _
          rw [hact] at hcd
          refine ⟨c, rfl, ?_⟩
          show R2Config.getFileUrl _ bucket key = _
          unfold R2Config.getFileUrl
          rw [if_neg (by simp [hcd', hcd])]

/-- A concrete S3-variant settings record (both sub-records present, as in
the persisted settings shape). -/
def sampleVariant : VariantConfig :=
  ⟨"AK", "SK", "us-east-1", "bkt", "", "", "images/"⟩

def sampleSettingsS3 : Settings := ⟨.s3, sampleVariant, sampleVariant⟩

/-- Claim C8 witness: the S3 variant with no custom domain resolves the
virtual-hosted public URL for a concrete bucket and key. -/
theorem c8_public_url_resolution_witness :
    ∃ sc, initializeStorageConfig sampleSettingsS3 = .ok sc ∧
      sc.getFileUrl "bkt" "k" =
        "https://" ++ "bkt" ++ ".s3." ++ sampleSettingsS3.s3Config.region ++
          ".amazonaws.com/" ++ "k" :=
  ⟨_, rfl, (c8_public_url_resolution sampleSettingsS3 _ "bkt" "k" rfl).2.1 rfl rfl⟩

/-- Claim C10: when the R2-style endpoint path has two or more segments,
only the first becomes the bucket component: the constructed configuration
is identical to the one built from an endpoint carrying just the first
segment, the bare endpoint contains no path, and the public URL uses only
the first segment. -/
theorem c10_extra_segments_discarded (ak sk cd e1 e2 scheme host p1 p2 : String)
    (s1 s2 : List Char) (rest : List (List Char))
    (h1 : parseHttpUrl e1 = some (scheme, host, p1))
    (hs1 : pathSegments p1 = s1 :: s2 :: rest)
    (h2 : parseHttpUrl e2 = some (scheme, host, p2))
    (hs2 : pathSegments p2 = [s1]) :
    R2Config.make ak sk e1 cd = R2Config.make ak sk e2 cd ∧
    ∃ c : R2Config, R2Config.make ak sk e1 cd = .ok c ∧
      c.baseEndpoint = scheme ++ "://" ++ host ∧
      c.bucketFromEndpoint = some (String.mk s1) ∧
      (cd = "" → ∀ bucket key, c.getFileUrl bucket key =
        scheme ++ "://" ++ host ++ "/" ++ String.mk s1 ++ "/" ++ key) := by
  constructor
  · rw [make_ok ak sk e1 cd scheme host p1 h1,
      make_ok ak sk e2 cd scheme host p2 h2, hs1, hs2]
    rfl
  · refine ⟨_, make_ok ak sk e1 cd scheme host p1 h1, rfl, ?_, ?_⟩
    · show (pathSegments p1).head?.map String.mk = _
      rw [hs1]
      rfl
    · intro hcd bucket key
      show R2Config.getFileUrl _ bucket key = _
      unfold R2Config.getFileUrl
      rw [if_neg (by simp [hcd])]
      show (scheme ++ "://" ++ host) ++ "/" ++
          (((pathSegments p1).head?.map String.mk).getD bucket) ++ "/" ++ key = _
      rw [hs1]
      rfl

/-- The catch block leaves a plain `Error` (name `"Error"`, no metadata)
untouched: none of its rules match. -/
theorem classify_plainError (m : String) :
    classifyUploadError (.plainError m) = .plainError m := by
  unfold classifyUploadError
  have h1 : JsError.name (.plainError m) = "Error" := rfl
  rw [h1, if_neg (by decide), if_neg (by decide)]
  have h2 : strIncludes "Network".data "Error".data = false := by decide
  rw [h2]
  simp [JsError.truthyStatus]

/-- An `HTTP …`-prefixed message is never a verification message. -/
theorem http_msg_ne_verification (a b : String) :
    ("HTTP " ++ a) ≠ ("File uploaded but not accessible (HTTP " ++ b) := by
  intro h
  have h1 : ("HTTP " ++ a).data.head? = some 'H' := by
    rw [String.data_append]
    rfl
  rw [h, String.data_append] at h1
  simp at h1

/-- Claim C2: when the signed PUT reports success but the follow-up signed
existence check fails, `uploadImage` fails with the distinguished
verification error of `main.ts` line 359 — it never returns a URL — and
that error differs from every error a failed write can produce (a rethrown
service error, or the `HTTP {status}: …` wrapper). -/
theorem c2_verification_failure_distinct (sc : StorageServiceConfig)
    (cfg : VariantConfig) (key : String) (bytes : List Nat) (mime : String)
    (e : JsError) :
    (uploadImage sc cfg key bytes mime (.ok ()) (.error e)).1 =
      .error (verificationError e) ∧
    (∀ url, (uploadImage sc cfg key bytes mime (.ok ()) (.error e)).1 ≠ .ok url) ∧
    (∀ n m st, classifyUploadError (.s3Error n m st) ≠ verificationError e) := by
  have hmain : (uploadImage sc cfg key bytes mime (.ok ()) (.error e)).1 =
      .error (verificationError e) := by
    show Except.error (classifyUploadError (verificationError e)) = _
    rw [show classifyUploadError (verificationError e) = verificationError e from
      classify_plainError _]
  refine ⟨hmain, ?_, ?_⟩
  · intro url h
    rw [hmain] at h
    cases h
  · intro n m st h
    unfold classifyUploadError at h
    have hn : JsError.name (.s3Error n m st) = n := rfl
    rw [hn] at h
    by_cases h1 : n = "NoSuchBucket"
    · rw [if_pos h1] at h
      cases h
    · rw [if_neg h1] at h
      by_cases h2 : n = "AccessDenied"
      · rw [if_pos h2] at h
        cases h
      · rw [if_neg h2] at h
        by_cases h3 : strIncludes "Network".data n.data = true
        · rw [if_pos h3] at h
          cases h
        · rw [if_neg h3] at h
          rcases hst : JsError.truthyStatus (.s3Error n m st) with _ | k
          · rw [hst] at h
            cases h
          · rw [hst] at h
            simp only [verificationError, JsError.plainError.injEq] at h
            exact http_msg_ne_verification (toString k ++ ": " ++ JsError.message (.s3Error n m st)) _
              (by simpa [String.append_assoc] using h)

/-- Claim C10 witness: `https://host/a/b` builds the same configuration as
`https://host/a`; segment `b` is discarded everywhere. -/
theorem c10_extra_segments_discarded_witness :
    R2Config.make "ak" "sk" "https://host/a/b" "" =
      R2Config.make "ak" "sk" "https://host/a" "" ∧
    ∃ c : R2Config, R2Config.make "ak" "sk" "https://host/a/b" "" = .ok c ∧
      c.baseEndpoint = "https" ++ "://" ++ "host" ∧
      c.bucketFromEndpoint = some (String.mk "a".data) ∧
      (("" : String) = "" → ∀ bucket key, c.getFileUrl bucket key =
        "https" ++ "://" ++ "host" ++ "/" ++ String.mk "a".data ++ "/" ++ key) :=
  c10_extra_segments_discarded "ak" "sk" "" "https://host/a/b" "https://host/a"
    "https" "host" "/a/b" "/a" "a".data "b".data []
    (by decide) (by decide) (by decide) (by decide)

/-- The three shape checks of `validateConfig` fire before the probe: any
shape defect yields an error with no network command issued. -/
theorem validateConfig_shape_error (cfg : VariantConfig) (probe : Except JsError Unit)
    (hdefect : cfg.accessKeyId = "" ∨ cfg.secretAccessKey = "" ∨ cfg.bucket = "" ∨
      strEndsWith cfg.pathPfx '/' = false ∨
      (cfg.customDomain ≠ "" ∧ isValidDomain cfg.customDomain = false)) :
    (∃ msg, (validateConfig cfg probe).1 = .error msg) ∧
      (validateConfig cfg probe).2 = [] := by
  unfold validateConfig
  by_cases h1 : ((if cfg.accessKeyId = "" then ["accessKeyId"] else []) ++
      (if cfg.secretAccessKey = "" then ["secretAccessKey"] else []) ++
      (if cfg.bucket = "" then ["bucket"] else [])) ≠ []
  · rw [if_pos h1]
    exact ⟨⟨_, rfl⟩, rfl⟩
  · rw [if_neg h1]
    push_neg at h1
    have hak : cfg.accessKeyId ≠ "" := by
      intro h
      rw [if_pos h] at h1
      simp at h1
    have hsk : cfg.secretAccessKey ≠ "" := by
      intro h
      rw [if_pos h] at h1
      simp at h1
    have hb : cfg.bucket ≠ "" := by
      intro h
      rw [if_pos h] at h1
      simp at h1
    by_cases h2 : strEndsWith cfg.pathPfx '/' = false
    · rw [if_pos h2]
      exact ⟨⟨_, rfl⟩, rfl⟩
    · rw [if_neg h2]
      by_cases h3 : cfg.customDomain ≠ "" ∧ isValidDomain cfg.customDomain = false
      · rw [if_pos h3]
        exact ⟨⟨_, rfl⟩, rfl⟩
      · rcases hdefect with h | h | h | h | h
        · exact absurd h hak
        · exact absurd h hsk
        · exact absurd h hb
        · exact absurd h h2
        · exact absurd h h3

/-- Claim C5: a configuration missing a credential or the bucket, or whose
path prefix does not end with `/`, or whose custom domain is malformed, or
(R2 variant) whose endpoint is empty, fails at startup with a
configuration error and zero network commands issued — the shape checks
and the R2 endpoint check all run before the probe. -/
theorem c5_config_error_before_network (s : Settings) (probe : Except JsError Unit)
    (hdefect : s.activeConfig.accessKeyId = "" ∨
      s.activeConfig.secretAccessKey = "" ∨ s.activeConfig.bucket = "" ∨
      strEndsWith s.activeConfig.pathPfx '/' = false ∨
      (s.activeConfig.customDomain ≠ "" ∧
        isValidDomain s.activeConfig.customDomain = false) ∨
      (s.serviceType = .r2 ∧ s.r2Config.endpoint = "")) :
    (∃ msg, (startupValidate s probe).1 = .error msg) ∧
      (startupValidate s probe).2 = [] := by
  unfold startupValidate
  rcases hinit : initializeStorageConfig s with e | sc
  · exact ⟨⟨e, rfl⟩, rfl⟩
  · have hdefect' : s.activeConfig.accessKeyId = "" ∨
        s.activeConfig.secretAccessKey = "" ∨ s.activeConfig.bucket = "" ∨
        strEndsWith s.activeConfig.pathPfx '/' = false ∨
        (s.activeConfig.customDomain ≠ "" ∧
          isValidDomain s.activeConfig.customDomain = false) := by
      rcases hdefect with h | h | h | h | h | h
      · exact Or.inl h
      · exact Or.inr (Or.inl h)
      · exact Or.inr (Or.inr (Or.inl h))
      · exact Or.inr (Or.inr (Or.inr (Or.inl h)))
      · exact Or.inr (Or.inr (Or.inr (Or.inr h)))
      · exfalso
        unfold initializeStorageConfig at hinit
        rw [h.1, if_pos h.2] at hinit
        cases hinit
    exact validateConfig_shape_error s.activeConfig probe hdefect'

/-- Claim C5 witness: a configuration missing `secretAccessKey` fails with
zero network commands. -/
theorem c5_config_error_before_network_witness :
    (Settings.mk .s3 ⟨"AK", "", "us-east-1", "bkt", "", "", "images/"⟩
        sampleVariant).activeConfig.secretAccessKey = "" ∧
    ((∃ msg, (startupValidate
        (Settings.mk .s3 ⟨"AK", "", "us-east-1", "bkt", "", "", "images/"⟩
          sampleVariant) (.ok ())).1 = .error msg) ∧
      (startupValidate
        (Settings.mk .s3 ⟨"AK", "", "us-east-1", "bkt", "", "", "images/"⟩
          sampleVariant) (.ok ())).2 = []) :=
  ⟨rfl, c5_config_error_before_network _ (.ok ()) (Or.inr (Or.inl rfl))⟩

/-- When all shape checks pass, `validateConfig` reaches the probe and is
exactly the classification of the probe outcome. -/
theorem validateConfig_probe_eq (cfg : VariantConfig)
    (hak : cfg.accessKeyId ≠ "") (hsk : cfg.secretAccessKey ≠ "")
    (hb : cfg.bucket ≠ "") (hpp : strEndsWith cfg.pathPfx '/' = true)
    (hcd : cfg.customDomain = "" ∨ isValidDomain cfg.customDomain = true)
    (probe : Except JsError Unit) :
    validateConfig cfg probe =
      (match probe with
       | .ok _ => (.ok (), [⟨cfg.bucket, sentinelKey⟩])
       | .error e =>
         if e.name = "NoSuchKey" then (.ok (), [⟨cfg.bucket, sentinelKey⟩])
         else if e.name = "NoSuchBucket" then
           (.error (bucketNotFoundMsg cfg.bucket), [⟨cfg.bucket, sentinelKey⟩])
         else if e.name = "AccessDenied" then
           (.error accessDeniedMsg, [⟨cfg.bucket, sentinelKey⟩])
         else (.error ("Failed to connect to storage: " ++ e.message),
           [⟨cfg.bucket, sentinelKey⟩])) := by
  unfold validateConfig
  rw [if_neg (by rw [if_neg hak, if_neg hsk, if_neg hb]; simp)]
  rw [if_neg (by simp [hpp])]
  rw [if_neg (by rcases hcd with h | h <;> simp [h])]

/-- Claim C6: with a well-shaped configuration, the connectivity probe is
exactly one signed existence check for the fixed sentinel key against the
configured bucket, and the outcome is classified as the spec states: a
`NoSuchKey` (not-found) response is success, `NoSuchBucket` and
`AccessDenied` raise distinct configuration errors, and any other failure
raises the generic connectivity error — with the three error messages
pairwise distinct. -/
theorem c6_connectivity_probe (cfg : VariantConfig)
    (hak : cfg.accessKeyId ≠ "") (hsk : cfg.secretAccessKey ≠ "")
    (hb : cfg.bucket ≠ "") (hpp : strEndsWith cfg.pathPfx '/' = true)
    (hcd : cfg.customDomain = "" ∨ isValidDomain cfg.customDomain = true) :
    (∀ probe, (validateConfig cfg probe).2 = [⟨cfg.bucket, sentinelKey⟩]) ∧
    ((validateConfig cfg (.ok ())).1 = .ok ()) ∧
    (∀ e : JsError, e.name = "NoSuchKey" →
      (validateConfig cfg (.error e)).1 = .ok ()) ∧
    (∀ e : JsError, e.name = "NoSuchBucket" →
      (validateConfig cfg (.error e)).1 = .error (bucketNotFoundMsg cfg.bucket)) ∧
    (∀ e : JsError, e.name = "AccessDenied" →
      (validateConfig cfg (.error e)).1 = .error accessDeniedMsg) ∧
    (∀ e : JsError, e.name ≠ "NoSuchKey" → e.name ≠ "NoSuchBucket" →
      e.name ≠ "AccessDenied" →
      (validateConfig cfg (.error e)).1 =
        .error ("Failed to connect to storage: " ++ e.message)) ∧
    (bucketNotFoundMsg cfg.bucket ≠ accessDeniedMsg) ∧
    (∀ m, bucketNotFoundMsg cfg.bucket ≠ "Failed to connect to storage: " ++ m) ∧
    (∀ m, accessDeniedMsg ≠ "Failed to connect to storage: " ++ m) := by
  have hB : ∀ b : String, (bucketNotFoundMsg b).data.head? = some 'B' := fun b => rfl
  have hA : accessDeniedMsg.data.head? = some 'A' := rfl
  have hF : ∀ m : String,
      ("Failed to connect to storage: " ++ m).data.head? = some 'F' := fun m => rfl
  refine ⟨?_, ?_, ?_, ?_, ?_, ?_, ?_, ?_, ?_⟩
  · intro p
    rw [validateConfig_probe_eq cfg hak hsk hb hpp hcd p]
    rcases p with e | u
    · dsimp only
      split
      · rfl
      split
      · rfl
      split <;> rfl
    · rfl
  · rw [validateConfig_probe_eq cfg hak hsk hb hpp hcd _]
  · intro e he
    rw [validateConfig_probe_eq cfg hak hsk hb hpp hcd _]
    dsimp only
    rw [if_pos he]
  · intro e he
    rw [validateConfig_probe_eq cfg hak hsk hb hpp hcd _]
    dsimp only
    rw [if_neg (by rw [he]; decide), if_pos he]
  · intro e he
    rw [validateConfig_probe_eq cfg hak hsk hb hpp hcd _]
    dsimp only
    rw [if_neg (by rw [he]; decide), if_neg (by rw [he]; decide), if_pos he]
  · intro e h1 h2 h3
    rw [validateConfig_probe_eq cfg hak hsk hb hpp hcd _]
    dsimp only
    rw [if_neg h1, if_neg h2, if_neg h3]
  · intro h
    have h1 := hB cfg.bucket
    rw [h, hA] at h1
    cases h1
  · intro m h
    have h1 := hB cfg.bucket
    rw [h, hF] at h1
    cases h1
  · intro m h
    have h1 := hA
    rw [h, hF] at h1
    cases h1

/-- Claim C6 witness: a well-shaped configuration issues exactly the
sentinel probe, and a `NoSuchKey` probe outcome validates successfully. -/
theorem c6_connectivity_probe_witness :
    sampleVariant.bucket ≠ "" ∧
    (validateConfig sampleVariant (.ok ())).2 =
      [⟨sampleVariant.bucket, sentinelKey⟩] ∧
    (validateConfig sampleVariant
      (.error (.s3Error "NoSuchKey" "absent" (some 404)))).1 = .ok () :=
  ⟨by decide,
   (c6_connectivity_probe sampleVariant (by decide) (by decide) (by decide)
     (by decide) (Or.inl rfl)).1 _,
   (c6_connectivity_probe sampleVariant (by decide) (by decide) (by decide)
     (by decide) (Or.inl rfl)).2.2.1 _ rfl⟩

/-- The plugin state after a successful startup with a `NoSuchKey` probe
response: one validation run, one probe issued. -/
def c9State : PluginState :=
  onloadModel sampleSettingsS3 (.error (.s3Error "NoSuchKey" "absent" (some 404)))

/-- Claim C9, counterexample: saving settings does not re-run
configuration validation — across a concrete `saveSettings` invocation the
validation-run counter and the issued network commands are unchanged (the
single recorded run and probe are the ones from `onload`), contradicting
the claim that every save triggers re-validation with its probe. -/
theorem c9_counterexample :
    (saveSettingsModel c9State sampleSettingsS3).1.validationRuns =
      c9State.validationRuns ∧
    (saveSettingsModel c9State sampleSettingsS3).1.headCalls =
      c9State.headCalls ∧
    c9State.validationRuns = 1 := by
  decide

/-- Claim C9 (amended): every save re-resolves the storage configuration
from the new settings and constructs a fresh client, but performs no
re-validation and issues no connectivity probe. -/
theorem c9_save_reresolves_without_validation (st : PluginState) (s : Settings)
    (sc : StorageServiceConfig) (h : initializeStorageConfig s = .ok sc) :
    saveSettingsModel st s =
      ({ settings := s, storageConfig := some sc,
         clientGen := st.clientGen + 1,
         validationRuns := st.validationRuns,
         headCalls := st.headCalls }, none) := by
  unfold saveSettingsModel
  rw [h]

/-- Claim C9 witness: the amended save behaviour at a concrete state and
settings value. -/
theorem c9_save_reresolves_without_validation_witness :
    saveSettingsModel c9State sampleSettingsS3 =
      ({ settings := sampleSettingsS3,
         storageConfig := some (.s3 ⟨"AK", "SK", "us-east-1", "", ""⟩),
         clientGen := c9State.clientGen + 1,
         validationRuns := c9State.validationRuns,
         headCalls := c9State.headCalls }, none) :=
  c9_save_reresolves_without_validation c9State sampleSettingsS3 _ rfl

end ImagePaste
